import Mathlib

/-!
# Graphics-Assignment: the debug window and the default scene layer

A shallow embedding of the two source files of the repository,

* `src/Application/Windows/DebugWindow.cpp` (`DebugWindow::RenderMenuBar`),
* `src/Application/Layers/DefaultSceneLayer.cpp`
  (`DefaultSceneLayer::OnAppLoad`, `DefaultSceneLayer::_CreateScene`),

followed by the properties of them that the specification states.

Both functions are glue code over an engine whose implementation is not part of
the sources.  The embedding therefore keeps the statements of the two functions
line by line and records every engine call they make, with its arguments, in a
trace; what the engine (or the immediate-mode GUI library) answers is a
parameter of the run.
-/

namespace DebugWindow

/-! ## `DebugWindow.cpp` -/

/-- A value of the `BulletDebugMode` enumeration, by the numeric value of its
enumerators; the enumeration is declared with the physics wrapper. -/
abbrev BulletDebugMode := Nat

/-- A value of the `RenderFlags` flag enumeration: the bit mask held in its
unsigned underlying type. -/
abbrev RenderFlags := Nat

/-- The declaration of the `RenderFlags` enumeration (it lives in `RenderLayer.h`,
which is not among the sources): the width in bits of the underlying unsigned
type and the mask of the enumerator `EnableWarmCorrection`. -/
structure RenderFlagsDecl where
  bits : Nat
  EnableWarmCorrection : RenderFlags
deriving DecidableEq, Repr

/-- Modelled from the spec: `RenderFlags::None`, an enumerator of the declaration
that is not among the sources, is the empty flag set. -/
def RenderFlags.None : RenderFlags := 0

/-- The operator `~` on the underlying type of `bits` bits. -/
def RenderFlags.complement (bits : Nat) (x : Nat) : Nat :=
  2 ^ bits - 1 - x % 2 ^ bits

/-- The conversion of a mask to `bool` at `bool temp = *(flags & ...)`: non-zero. -/
def RenderFlags.toBool (x : RenderFlags) : Bool :=
  x != 0

/-- The live engine state the window reads and writes: the physics debug-draw mode
of `app.CurrentScene()` and the flags of the `RenderLayer`. -/
structure EngineState where
  physicsDebugDrawMode : BulletDebugMode
  renderFlags : RenderFlags
deriving DecidableEq, Repr

/-- What the two GUI controls do in this frame.  Each takes its label and the value
shown, and answers whether it reports a change together with the value it leaves
in the variable passed by reference. -/
structure Gui where
  DrawModeGui : String → BulletDebugMode → Bool × BulletDebugMode
  Checkbox : String → Bool → Bool × Bool

/-- The calls `RenderMenuBar` makes, with their arguments. -/
inductive Call where
  | ApplicationGet
  | GetLayerRenderLayer
  | GetPhysicsDebugDrawMode
  | DrawModeGui (label : String) (mode : BulletDebugMode)
  | SetPhysicsDebugDrawMode (mode : BulletDebugMode)
  | Separator
  | GetRenderFlags
  | Checkbox (label : String) (v : Bool)
  | SetRenderFlags (flags : RenderFlags)
deriving DecidableEq, Repr

/-- The state threaded through one frame: the engine state and the calls made so
far, oldest first. -/
structure Frame where
  engine : EngineState
  calls : List Call
deriving DecidableEq, Repr

/-- A statement of the window: it acts on the frame and yields a value. -/
abbrev Stmt (α : Type) := Frame → α × Frame

/-- Records a call that neither reads nor writes the engine state. -/
def record (c : Call) : Stmt Unit :=
  fun fr => ((), { fr with calls := fr.calls ++ [c] })

/-- `app.CurrentScene()->GetPhysicsDebugDrawMode()`. -/
def GetPhysicsDebugDrawMode : Stmt BulletDebugMode :=
  fun fr => (fr.engine.physicsDebugDrawMode,
    { fr with calls := fr.calls ++ [Call.GetPhysicsDebugDrawMode] })

/-- `app.CurrentScene()->SetPhysicsDebugDrawMode(mode)`. -/
def SetPhysicsDebugDrawMode (mode : BulletDebugMode) : Stmt Unit :=
  fun fr => ((),
    { engine := { fr.engine with physicsDebugDrawMode := mode },
      calls := fr.calls ++ [Call.SetPhysicsDebugDrawMode mode] })

/-- `renderLayer->GetRenderFlags()`. -/
def GetRenderFlags : Stmt RenderFlags :=
  fun fr => (fr.engine.renderFlags, { fr with calls := fr.calls ++ [Call.GetRenderFlags] })

/-- `renderLayer->SetRenderFlags(flags)`. -/
def SetRenderFlags (flags : RenderFlags) : Stmt Unit :=
  fun fr => ((),
    { engine := { fr.engine with renderFlags := flags },
      calls := fr.calls ++ [Call.SetRenderFlags flags] })

/-- `BulletDebugDraw::DrawModeGui(label, mode)`, `mode` passed by reference. -/
def DrawModeGui (gui : Gui) (label : String) (mode : BulletDebugMode) :
    Stmt (Bool × BulletDebugMode) :=
  fun fr => (gui.DrawModeGui label mode,
    { fr with calls := fr.calls ++ [Call.DrawModeGui label mode] })

/-- `ImGui::Checkbox(label, &v)`. -/
def Checkbox (gui : Gui) (label : String) (v : Bool) : Stmt (Bool × Bool) :=
  fun fr => (gui.Checkbox label v, { fr with calls := fr.calls ++ [Call.Checkbox label v] })

/-- The value `RenderMenuBar` computes for `flags` inside the checkbox branch:
`(flags & ~*RenderFlags::EnableWarmCorrection)
   | (temp ? RenderFlags::EnableWarmCorrection : RenderFlags::None)`. -/
def updatedFlags (d : RenderFlagsDecl) (flags : RenderFlags) (temp : Bool) : RenderFlags :=
  (flags &&& RenderFlags.complement d.bits d.EnableWarmCorrection)
    ||| (if temp then d.EnableWarmCorrection else RenderFlags.None)

/-- `DebugWindow::RenderMenuBar`. -/
def RenderMenuBar (d : RenderFlagsDecl) (gui : Gui) : Stmt Unit := fun fr₀ =>
  -- Application& app = Application::Get();
  let (_, fr₁) := record Call.ApplicationGet fr₀
  -- RenderLayer::Sptr renderLayer = app.GetLayer<RenderLayer>();
  let (_, fr₂) := record Call.GetLayerRenderLayer fr₁
  -- BulletDebugMode physicsDrawMode = app.CurrentScene()->GetPhysicsDebugDrawMode();
  let (physicsDrawMode, fr₃) := GetPhysicsDebugDrawMode fr₂
  -- if (BulletDebugDraw::DrawModeGui("Physics Debug Mode:", physicsDrawMode)) { ... }
  let (modeGui, fr₄) := DrawModeGui gui "Physics Debug Mode:" physicsDrawMode fr₃
  let physicsDrawMode := modeGui.2
  let (_, fr₅) :=
    if modeGui.1 then SetPhysicsDebugDrawMode physicsDrawMode fr₄ else ((), fr₄)
  -- ImGui::Separator();
  let (_, fr₆) := record Call.Separator fr₅
  -- RenderFlags flags = renderLayer->GetRenderFlags();
  let (flags, fr₇) := GetRenderFlags fr₆
  -- bool changed = false;
  let changed := false
  -- bool temp = *(flags & RenderFlags::EnableWarmCorrection);
  let temp := RenderFlags.toBool (flags &&& d.EnableWarmCorrection)
  -- if (ImGui::Checkbox("Enable Color Correction", &temp)) { changed = true; flags = ...; }
  let (box, fr₈) := Checkbox gui "Enable Color Correction" temp fr₇
  let temp := box.2
  let (changed, flags) :=
    if box.1 then (true, updatedFlags d flags temp) else (changed, flags)
  -- if (changed) { renderLayer->SetRenderFlags(flags); }
  if changed then SetRenderFlags flags fr₈ else ((), fr₈)

/-- The frame `RenderMenuBar` leaves when it starts from engine state `s` with no
call made yet. -/
def frameAfter (d : RenderFlagsDecl) (gui : Gui) (s : EngineState) : Frame :=
  (RenderMenuBar d gui { engine := s, calls := [] }).2

/-- The Boolean `RenderMenuBar` hands to the checkbox when the flags are `f`. -/
def shownChecked (d : RenderFlagsDecl) (f : RenderFlags) : Bool :=
  RenderFlags.toBool (f &&& d.EnableWarmCorrection)

/-- The masks passed to `SetRenderFlags` in a list of calls, oldest first. -/
def setRenderFlagsArgs : List Call → List RenderFlags
  | [] => []
  | Call.SetRenderFlags f :: cs => f :: setRenderFlagsArgs cs
  | _ :: cs => setRenderFlagsArgs cs

/-- The modes passed to `SetPhysicsDebugDrawMode` in a list of calls, oldest first. -/
def setPhysicsDebugDrawModeArgs : List Call → List BulletDebugMode
  | [] => []
  | Call.SetPhysicsDebugDrawMode m :: cs => m :: setPhysicsDebugDrawModeArgs cs
  | _ :: cs => setPhysicsDebugDrawModeArgs cs

/-- The modes shown to `DrawModeGui` in a list of calls, oldest first. -/
def drawModeGuiArgs : List Call → List (String × BulletDebugMode)
  | [] => []
  | Call.DrawModeGui l m :: cs => (l, m) :: drawModeGuiArgs cs
  | _ :: cs => drawModeGuiArgs cs

/-- The Booleans handed to `Checkbox` in a list of calls, oldest first. -/
def checkboxArgs : List Call → List (String × Bool)
  | [] => []
  | Call.Checkbox l v :: cs => (l, v) :: checkboxArgs cs
  | _ :: cs => checkboxArgs cs

/-- What the mode control answers in the frame that starts from engine state `s`. -/
def drawModeAnswer (gui : Gui) (s : EngineState) : Bool × BulletDebugMode :=
  gui.DrawModeGui "Physics Debug Mode:" s.physicsDebugDrawMode

/-- What the checkbox answers in the frame that starts from engine state `s`. -/
def checkboxAnswer (d : RenderFlagsDecl) (gui : Gui) (s : EngineState) : Bool × Bool :=
  gui.Checkbox "Enable Color Correction" (shownChecked d s.renderFlags)

/-- A frame in which the user clicks both controls: the checkbox flips the value it
shows, the mode control moves to the next mode; both report a change. -/
def Gui.clicked : Gui where
  DrawModeGui := fun _ mode => (true, mode + 1)
  Checkbox := fun _ v => (true, !v)

/-- A frame in which the user touches neither control: both leave their value and
report no change. -/
def Gui.idle : Gui where
  DrawModeGui := fun _ mode => (false, mode)
  Checkbox := fun _ v => (false, v)

/-- A frame in which both controls report a change while leaving the value they
were shown. -/
def Gui.reconfirmed : Gui where
  DrawModeGui := fun _ mode => (true, mode)
  Checkbox := fun _ v => (true, v)

end DebugWindow

namespace glm

/-- A `glm::vec2` built from float literals; each component is the decimal value
written in the source. -/
structure vec2 where
  x : ℚ
  y : ℚ
deriving DecidableEq, Repr

/-- A `glm::vec3` built from float literals; each component is the decimal value
written in the source. -/
structure vec3 where
  x : ℚ
  y : ℚ
  z : ℚ
deriving DecidableEq, Repr

/-- The constructor `glm::vec2(s)`: every component is `s`. -/
def vec2.splat (s : ℚ) : vec2 := ⟨s, s⟩

/-- The constructor `glm::vec3(s)`: every component is `s`. -/
def vec3.splat (s : ℚ) : vec3 := ⟨s, s, s⟩

/-- The angles the source names: `glm::half_pi<float>()`. -/
inductive Angle where
  | half_pi
deriving DecidableEq, Repr

end glm

namespace DefaultSceneLayer

/-! ## `DefaultSceneLayer.cpp` -/

/-- The identity of an engine object (what an `Sptr` points to).  An object is
named by the position, in the run, of the call that returned it. -/
abbrev Handle := Nat

/-- What a failing engine call signals. -/
abbrev Error := String

/-- The constants of `Utils/GlmDefines.h` the source passes to the engine; the header
is not among the sources, so they are kept by name. -/
inductive GlmDefine where
  | ZERO
  | ONE
  | UNIT_X
  | UNIT_Z
  | MAT4_IDENTITY
deriving DecidableEq, Repr

/-- The matrix `glm::rotate(m, angle, axis)`, kept as the expression the source
writes. -/
structure Rotate where
  m : GlmDefine
  angle : glm.Angle
  axis : glm.vec3
deriving DecidableEq, Repr

inductive ShaderPartType where
  | Vertex
  | Fragment
deriving DecidableEq, Repr

/-- The enumerator of `MinFilter` the source uses. -/
inductive MinFilter where
  | Nearest
deriving DecidableEq, Repr

/-- The enumerator of `MagFilter` the source uses. -/
inductive MagFilter where
  | Nearest
deriving DecidableEq, Repr

/-- The enumerator of `WrapMode` the source uses. -/
inductive WrapMode where
  | ClampToEdge
deriving DecidableEq, Repr

/-- The forms of `ResourceManager::CreateAsset<T>(args...)` in the source, one
constructor for each asset type and argument list. -/
inductive Asset where
  | ShaderProgram (parts : List (ShaderPartType × String))
  | MeshResourceFile (file : String)
  | MeshResource
  | Texture1D (file : String)
  | Texture2D (file : String)
  | Texture3D (file : String)
  | TextureCube (file : String)
  | Material (shader : Handle)
deriving DecidableEq, Repr

/-- The static constructors of `MeshBuilderParam` with the arguments the source
gives them; `uvScale` is the optional last argument of `CreatePlane`. -/
inductive MeshBuilderParam where
  | CreatePlane (pos normal tangent : GlmDefine) (size : glm.vec2) (uvScale : Option glm.vec2)
  | CreateIcoSphere (center : GlmDefine) (radii : glm.vec3) (tessellation : Nat)
  | CreateCube (pos scale : GlmDefine)
deriving DecidableEq, Repr

/-- The component types the source attaches with `GameObject::Add<T>()`. -/
inductive Component where
  | SimpleCameraControl
  | RenderComponent
  | RigidBody
  | RotatingBehaviour
deriving DecidableEq, Repr

/-- The overloads of `Material::Set(name, value)` the source uses. -/
inductive MaterialValue where
  | texture (t : Handle)
  | float (v : ℚ)
  | int (v : Int)
  | vec3 (v : glm.vec3)
deriving DecidableEq, Repr

/-- The two overloads of `Application::LoadScene`: a path, or a scene. -/
inductive LoadSceneArg where
  | path (p : String)
  | scene (s : Handle)
deriving DecidableEq, Repr

/-- The engine calls (and writes to fields of engine objects) that `_CreateScene`
makes, with their receivers and arguments. -/
inductive Call where
  /-- The call `Application::Get()`. -/
  | ApplicationGet
  /-- The call `ResourceManager::CreateAsset<T>(args...)`. -/
  | CreateAsset (a : Asset)
  /-- The call `shader->SetDebugName(name)`. -/
  | SetDebugName (shader : Handle) (name : String)
  /-- The call `texture->SetMinFilter(f)`. -/
  | SetMinFilter (texture : Handle) (f : MinFilter)
  /-- The call `texture->SetMagFilter(f)`. -/
  | SetMagFilter (texture : Handle) (f : MagFilter)
  /-- The call `texture->SetWrap(m)`. -/
  | SetWrap (texture : Handle) (m : WrapMode)
  /-- The call `std::make_shared<Scene>()`. -/
  | MakeSharedScene
  /-- The call `scene->SetSkyboxTexture(cubemap)`. -/
  | SetSkyboxTexture (scene : Handle) (cubemap : Handle)
  /-- The call `scene->SetSkyboxShader(shader)`. -/
  | SetSkyboxShader (scene : Handle) (shader : Handle)
  /-- The call `scene->SetSkyboxRotation(m)`. -/
  | SetSkyboxRotation (scene : Handle) (m : Rotate)
  /-- The call `scene->SetColorLUT(lut, slot)`. -/
  | SetColorLUT (scene : Handle) (lut : Handle) (slot : Nat)
  /-- The call `material->Name = name`. -/
  | MaterialNameAssign (material : Handle) (name : String)
  /-- The call `material->Set(uniform, value)`. -/
  | MaterialSet (material : Handle) (uniform : String) (value : MaterialValue)
  /-- The call `scene->Lights.resize(n)`. -/
  | LightsResize (scene : Handle) (n : Nat)
  /-- The call `scene->Lights[i].Position = v`. -/
  | LightPositionAssign (scene : Handle) (i : Nat) (v : glm.vec3)
  /-- The call `scene->Lights[i].Color = v`. -/
  | LightColorAssign (scene : Handle) (i : Nat) (v : glm.vec3)
  /-- The call `scene->Lights[i].Range = r`. -/
  | LightRangeAssign (scene : Handle) (i : Nat) (r : ℚ)
  /-- The call `mesh->AddParam(p)`. -/
  | AddParam (mesh : Handle) (p : MeshBuilderParam)
  /-- The call `mesh->GenerateMesh()`. -/
  | GenerateMesh (mesh : Handle)
  /-- The call `scene->MainCamera->GetGameObject()->SelfRef()`. -/
  | MainCameraGameObject (scene : Handle)
  /-- The call `object->SetPostion(v)`. -/
  | SetPostion (object : Handle) (v : glm.vec3)
  /-- The call `object->SetRotation(v)`. -/
  | SetRotation (object : Handle) (v : glm.vec3)
  /-- The call `object->Add<T>()`. -/
  | Add (object : Handle) (T : Component)
  /-- The call `scene->CreateGameObject(name)`. -/
  | CreateGameObject (scene : Handle) (name : String)
  /-- The call `renderer->SetMesh(mesh)`. -/
  | SetMesh (renderer : Handle) (mesh : Handle)
  /-- The call `renderer->SetMaterial(material)`. -/
  | SetMaterial (renderer : Handle) (material : Handle)
  /-- The call `behaviour->RotationSpeed = v`. -/
  | RotationSpeedAssign (behaviour : Handle) (v : glm.vec3)
  /-- The call `BoxCollider::Create(halfExtents)`. -/
  | BoxColliderCreate (halfExtents : glm.vec3)
  /-- The call `body->AddCollider(collider)`. -/
  | AddCollider (body : Handle) (collider : Handle)
  /-- The call `collider->SetPosition(v)`. -/
  | ColliderSetPosition (collider : Handle) (v : glm.vec3)
  /-- The call `GuiBatcher::SetDefaultTexture(texture)`. -/
  | SetDefaultTexture (texture : Handle)
  /-- The call `GuiBatcher::SetDefaultBorderRadius(r)`. -/
  | SetDefaultBorderRadius (r : Nat)
  /-- The call `ResourceManager::SaveManifest(path)`. -/
  | SaveManifest (path : String)
  /-- The call `scene->Save(path)`. -/
  | Save (scene : Handle) (path : String)
  /-- The call `app.LoadScene(arg)`. -/
  | LoadScene (arg : LoadSceneArg)
deriving DecidableEq, Repr

/-- A straight-line program over the engine: it is finished with a value, or it
makes a call and goes on with the object the call returned. -/
inductive Prog (α : Type) where
  | done (a : α)
  | call (c : Call) (rest : Handle → Prog α)

/-- Sequencing of programs. -/
def Prog.bind {α β : Type} : Prog α → (α → Prog β) → Prog β
  | Prog.done a, f => f a
  | Prog.call c rest, f => Prog.call c (fun h => (rest h).bind f)

instance : Monad Prog where
  pure := Prog.done
  bind := Prog.bind

/-- A call whose returned object the source uses. -/
def invoke (c : Call) : Prog Handle :=
  Prog.call c Prog.done

/-- A call whose result the source discards, or a write to a field. -/
def exec (c : Call) : Prog Unit :=
  Prog.call c (fun _ => Prog.done ())

/-- One call of a run and how it ended: `error = none` when it returned. -/
structure Event where
  call : Call
  error : Option Error
deriving DecidableEq, Repr

/-- How the engine behaves in a run: whether the call made at position `n` of the
run (counted from 0) fails, and with what error. -/
abbrev Engine := Nat → Call → Option Error

/-- The engine on which no call fails. -/
def Engine.noFailure : Engine := fun _ _ => none

/-- What a run leaves: the calls made, oldest first, and the value the program
returned or the error that ended it. -/
structure Outcome (α : Type) where
  events : List Event
  result : Except Error α

/-- Runs a program from position `n`.  A call that fails ends the run with its
error, as a C++ exception that nothing catches does; a call that returns hands
the program the object made at this position. -/
def run {α : Type} (eng : Engine) : Nat → Prog α → Outcome α
  | _, Prog.done a => { events := [], result := Except.ok a }
  | n, Prog.call c rest =>
    match eng n c with
    | some e => { events := [{ call := c, error := some e }], result := Except.error e }
    | none =>
      let r := run eng (n + 1) (rest n)
      { events := { call := c, error := none } :: r.events, result := r.result }

/-- The calls of a run, oldest first. -/
def Outcome.calls {α : Type} (o : Outcome α) : List Call :=
  o.events.map Event.call

/-- Whether the run returned normally. -/
def Outcome.succeeded {α : Type} (o : Outcome α) : Bool :=
  match o.result with
  | Except.ok _ => true
  | Except.error _ => false

/-- The error that ended the run, if one did. -/
def Outcome.failure {α : Type} (o : Outcome α) : Option Error :=
  match o.result with
  | Except.ok _ => none
  | Except.error e => some e

end DefaultSceneLayer

namespace DefaultSceneLayer

open ShaderPartType

set_option maxRecDepth 100000

/-- `DefaultSceneLayer::_CreateScene`.  `filesystem_exists` is the state of the file
system as `std::filesystem::exists` reports it. -/
def _CreateScene (filesystem_exists : String → Bool) : Prog Unit := do
  exec Call.ApplicationGet
  let loadScene := false
  -- For now we can use a toggle to generate our scene vs load from file
  if loadScene && filesystem_exists "scene.json" then
    exec (Call.LoadScene (LoadSceneArg.path "scene.json"))
  else
    let reflectiveShader ← invoke (Call.CreateAsset (Asset.ShaderProgram [
      (Vertex, "shaders/vertex_shaders/basic.glsl"),
      (Fragment, "shaders/fragment_shaders/frag_environment_reflective.glsl")]))
    exec (Call.SetDebugName reflectiveShader "Reflective")
    let basicShader ← invoke (Call.CreateAsset (Asset.ShaderProgram [
      (Vertex, "shaders/vertex_shaders/basic.glsl"),
      (Fragment, "shaders/fragment_shaders/frag_blinn_phong_textured.glsl")]))
    exec (Call.SetDebugName basicShader "Blinn-phong")
    let specShader ← invoke (Call.CreateAsset (Asset.ShaderProgram [
      (Vertex, "shaders/vertex_shaders/basic.glsl"),
      (Fragment, "shaders/fragment_shaders/textured_specular.glsl")]))
    exec (Call.SetDebugName specShader "Textured-Specular")
    let foliageShader ← invoke (Call.CreateAsset (Asset.ShaderProgram [
      (Vertex, "shaders/vertex_shaders/foliage.glsl"),
      (Fragment, "shaders/fragment_shaders/screendoor_transparency.glsl")]))
    exec (Call.SetDebugName foliageShader "Foliage")
    let toonShader ← invoke (Call.CreateAsset (Asset.ShaderProgram [
      (Vertex, "shaders/vertex_shaders/basic.glsl"),
      (Fragment, "shaders/fragment_shaders/toon_shading.glsl")]))
    exec (Call.SetDebugName toonShader "Toon Shader")
    let displacementShader ← invoke (Call.CreateAsset (Asset.ShaderProgram [
      (Vertex, "shaders/vertex_shaders/displacement_mapping.glsl"),
      (Fragment, "shaders/fragment_shaders/frag_tangentspace_normal_maps.glsl")]))
    exec (Call.SetDebugName displacementShader "Displacement Mapping")
    let tangentSpaceMapping ← invoke (Call.CreateAsset (Asset.ShaderProgram [
      (Vertex, "shaders/vertex_shaders/basic.glsl"),
      (Fragment, "shaders/fragment_shaders/frag_tangentspace_normal_maps.glsl")]))
    exec (Call.SetDebugName tangentSpaceMapping "Tangent Space Mapping")
    let multiTextureShader ← invoke (Call.CreateAsset (Asset.ShaderProgram [
      (Vertex, "shaders/vertex_shaders/vert_multitextured.glsl"),
      (Fragment, "shaders/fragment_shaders/frag_multitextured.glsl")]))
    exec (Call.SetDebugName multiTextureShader "Multitexturing")
    -- Load in the meshes
    let monkeyMesh ← invoke (Call.CreateAsset (Asset.MeshResourceFile "Monkey.obj"))
    -- Load in some textures
    let boxTexture ← invoke (Call.CreateAsset (Asset.Texture2D "textures/box-diffuse.png"))
    let boxSpec ← invoke (Call.CreateAsset (Asset.Texture2D "textures/box-specular.png"))
    let monkeyTex ← invoke (Call.CreateAsset (Asset.Texture2D "textures/monkey-uvMap.png"))
    let leafTex ← invoke (Call.CreateAsset (Asset.Texture2D "textures/leaves.png"))
    exec (Call.SetMinFilter leafTex MinFilter.Nearest)
    exec (Call.SetMagFilter leafTex MagFilter.Nearest)
    -- Loading in a 1D LUT
    let toonLut ← invoke (Call.CreateAsset (Asset.Texture1D "luts/toon-1D.png"))
    exec (Call.SetWrap toonLut WrapMode.ClampToEdge)
    -- Load in the cubemap, as well as a special shader to handle drawing the skybox
    let testCubemap ← invoke (Call.CreateAsset (Asset.TextureCube "cubemaps/ocean/ocean.jpg"))
    let skyboxShader ← invoke (Call.CreateAsset (Asset.ShaderProgram [
      (Vertex, "shaders/vertex_shaders/skybox_vert.glsl"),
      (Fragment, "shaders/fragment_shaders/skybox_frag.glsl")]))
    -- Create an empty scene
    let scene ← invoke Call.MakeSharedScene
    -- Setting up our enviroment map
    exec (Call.SetSkyboxTexture scene testCubemap)
    exec (Call.SetSkyboxShader scene skyboxShader)
    exec (Call.SetSkyboxRotation scene
      { m := GlmDefine.MAT4_IDENTITY, angle := glm.Angle.half_pi, axis := ⟨1.0, 0.0, 0.0⟩ })
    -- Loading in a color lookup table
    let lut ← invoke (Call.CreateAsset (Asset.Texture3D "luts/Warmer.CUBE"))
    let lut2 ← invoke (Call.CreateAsset (Asset.Texture3D "luts/cool.cube"))
    let lut3 ← invoke (Call.CreateAsset (Asset.Texture3D "luts/invert.CUBE"))
    -- Configure the color correction LUT
    exec (Call.SetColorLUT scene lut 0)
    exec (Call.SetColorLUT scene lut2 1)
    exec (Call.SetColorLUT scene lut3 2)
    -- Create our materials
    let boxMaterial ← invoke (Call.CreateAsset (Asset.Material basicShader))
    exec (Call.MaterialNameAssign boxMaterial "Box")
    exec (Call.MaterialSet boxMaterial "u_Material.Diffuse" (MaterialValue.texture boxTexture))
    exec (Call.MaterialSet boxMaterial "u_Material.Shininess" (MaterialValue.float 0.1))
    exec (Call.MaterialSet boxMaterial "u_Material.oneDLut" (MaterialValue.texture toonLut))
    let monkeyMaterial ← invoke (Call.CreateAsset (Asset.Material basicShader))
    exec (Call.MaterialNameAssign monkeyMaterial "Monkey")
    exec (Call.MaterialSet monkeyMaterial "u_Material.Diffuse" (MaterialValue.texture monkeyTex))
    exec (Call.MaterialSet monkeyMaterial "u_Material.Shininess" (MaterialValue.float 0.5))
    exec (Call.MaterialSet monkeyMaterial "u_Material.oneDLut" (MaterialValue.texture toonLut))
    let testMaterial ← invoke (Call.CreateAsset (Asset.Material specShader))
    exec (Call.MaterialNameAssign testMaterial "Box-Specular")
    exec (Call.MaterialSet testMaterial "u_Material.Diffuse" (MaterialValue.texture boxTexture))
    exec (Call.MaterialSet testMaterial "u_Material.Specular" (MaterialValue.texture boxSpec))
    -- Our foliage vertex shader material
    let foliageMaterial ← invoke (Call.CreateAsset (Asset.Material foliageShader))
    exec (Call.MaterialNameAssign foliageMaterial "Foliage Shader")
    exec (Call.MaterialSet foliageMaterial "u_Material.Diffuse" (MaterialValue.texture leafTex))
    exec (Call.MaterialSet foliageMaterial "u_Material.Shininess" (MaterialValue.float 0.1))
    exec (Call.MaterialSet foliageMaterial "u_Material.Threshold" (MaterialValue.float 0.1))
    exec (Call.MaterialSet foliageMaterial "u_Material.oneDLut" (MaterialValue.texture toonLut))
    exec (Call.MaterialSet foliageMaterial "u_WindDirection" (MaterialValue.vec3 ⟨1.0, 1.0, 0.0⟩))
    exec (Call.MaterialSet foliageMaterial "u_WindStrength" (MaterialValue.float 0.5))
    exec (Call.MaterialSet foliageMaterial "u_VerticalScale" (MaterialValue.float 1.0))
    exec (Call.MaterialSet foliageMaterial "u_WindSpeed" (MaterialValue.float 1.0))
    -- Our toon shader material
    let toonMaterial ← invoke (Call.CreateAsset (Asset.Material toonShader))
    exec (Call.MaterialNameAssign toonMaterial "Toon")
    exec (Call.MaterialSet toonMaterial "u_Material.Diffuse" (MaterialValue.texture monkeyTex))
    exec (Call.MaterialSet toonMaterial "s_ToonTerm" (MaterialValue.texture toonLut))
    exec (Call.MaterialSet toonMaterial "u_Material.Shininess" (MaterialValue.float 0.1))
    exec (Call.MaterialSet toonMaterial "u_Material.Steps" (MaterialValue.int 8))
    let displacementTest ← invoke (Call.CreateAsset (Asset.Material displacementShader))
    let displacementMap ← invoke (Call.CreateAsset (Asset.Texture2D "textures/displacement_map.png"))
    let normalMap ← invoke (Call.CreateAsset (Asset.Texture2D "textures/normal_map.png"))
    let diffuseMap ← invoke (Call.CreateAsset (Asset.Texture2D "textures/bricks_diffuse.png"))
    exec (Call.MaterialNameAssign displacementTest "Displacement Map")
    exec (Call.MaterialSet displacementTest "u_Material.Diffuse" (MaterialValue.texture diffuseMap))
    exec (Call.MaterialSet displacementTest "s_Heightmap" (MaterialValue.texture displacementMap))
    exec (Call.MaterialSet displacementTest "s_NormalMap" (MaterialValue.texture normalMap))
    exec (Call.MaterialSet displacementTest "u_Material.Shininess" (MaterialValue.float 0.5))
    exec (Call.MaterialSet displacementTest "u_Scale" (MaterialValue.float 0.1))
    let normalmapMat ← invoke (Call.CreateAsset (Asset.Material tangentSpaceMapping))
    let normalMap ← invoke (Call.CreateAsset (Asset.Texture2D "textures/normal_map.png"))
    let diffuseMap ← invoke (Call.CreateAsset (Asset.Texture2D "textures/bricks_diffuse.png"))
    exec (Call.MaterialNameAssign normalmapMat "Tangent Space Normal Map")
    exec (Call.MaterialSet normalmapMat "u_Material.Diffuse" (MaterialValue.texture diffuseMap))
    exec (Call.MaterialSet normalmapMat "s_NormalMap" (MaterialValue.texture normalMap))
    exec (Call.MaterialSet normalmapMat "u_Material.Shininess" (MaterialValue.float 0.5))
    exec (Call.MaterialSet normalmapMat "u_Scale" (MaterialValue.float 0.1))
    let multiTextureMat ← invoke (Call.CreateAsset (Asset.Material multiTextureShader))
    let sand ← invoke (Call.CreateAsset (Asset.Texture2D "textures/terrain/sand.png"))
    let grass ← invoke (Call.CreateAsset (Asset.Texture2D "textures/terrain/grass.png"))
    exec (Call.MaterialNameAssign multiTextureMat "Multitexturing")
    exec (Call.MaterialSet multiTextureMat "u_Material.DiffuseA" (MaterialValue.texture sand))
    exec (Call.MaterialSet multiTextureMat "u_Material.DiffuseB" (MaterialValue.texture grass))
    exec (Call.MaterialSet multiTextureMat "u_Material.Shininess" (MaterialValue.float 0.5))
    exec (Call.MaterialSet multiTextureMat "u_Scale" (MaterialValue.float 0.1))
    -- Create some lights for our scene
    exec (Call.LightsResize scene 3)
    exec (Call.LightPositionAssign scene 0 ⟨0.0, 1.0, 3.0⟩)
    exec (Call.LightColorAssign scene 0 ⟨1.0, 1.0, 1.0⟩)
    exec (Call.LightRangeAssign scene 0 100.0)
    exec (Call.LightPositionAssign scene 1 ⟨1.0, 0.0, 3.0⟩)
    exec (Call.LightColorAssign scene 1 ⟨0.2, 0.8, 0.1⟩)
    exec (Call.LightPositionAssign scene 2 ⟨0.0, 1.0, 3.0⟩)
    exec (Call.LightColorAssign scene 2 ⟨1.0, 0.2, 0.1⟩)
    -- Create a mesh that is a simple plane that we can resize later
    let planeMesh ← invoke (Call.CreateAsset Asset.MeshResource)
    exec (Call.AddParam planeMesh (MeshBuilderParam.CreatePlane
      GlmDefine.ZERO GlmDefine.UNIT_Z GlmDefine.UNIT_X (glm.vec2.splat 1.0) none))
    exec (Call.GenerateMesh planeMesh)
    let sphere ← invoke (Call.CreateAsset Asset.MeshResource)
    exec (Call.AddParam sphere (MeshBuilderParam.CreateIcoSphere
      GlmDefine.ZERO (glm.vec3.splat 2.0) 5))
    exec (Call.GenerateMesh sphere)
    let boxMesh ← invoke (Call.CreateAsset Asset.MeshResource)
    exec (Call.AddParam boxMesh (MeshBuilderParam.CreateCube GlmDefine.ZERO GlmDefine.ONE))
    exec (Call.GenerateMesh boxMesh)
    -- Set up the camera of the scene
    let camera ← invoke (Call.MainCameraGameObject scene)
    exec (Call.SetPostion camera ⟨-5, 0, 4⟩)
    exec (Call.SetRotation camera ⟨90.0, 0.0, -90.0⟩)
    let _ ← invoke (Call.Add camera Component.SimpleCameraControl)
    -- Set up all our sample objects
    let plane ← invoke (Call.CreateGameObject scene "Plane")
    -- Make a big tiled mesh
    let tiledMesh ← invoke (Call.CreateAsset Asset.MeshResource)
    exec (Call.AddParam tiledMesh (MeshBuilderParam.CreatePlane
      GlmDefine.ZERO GlmDefine.UNIT_Z GlmDefine.UNIT_X
      (glm.vec2.splat 100.0) (some (glm.vec2.splat 20.0))))
    exec (Call.GenerateMesh tiledMesh)
    -- Create and attach a RenderComponent to the object to draw our mesh
    let renderer ← invoke (Call.Add plane Component.RenderComponent)
    exec (Call.SetMesh renderer tiledMesh)
    exec (Call.SetMaterial renderer boxMaterial)
    -- Attach a plane collider that extends infinitely along the X/Y axis
    let physics ← invoke (Call.Add plane Component.RigidBody)
    let boxCollider ← invoke (Call.BoxColliderCreate ⟨50.0, 50.0, 1.0⟩)
    let collider ← invoke (Call.AddCollider physics boxCollider)
    exec (Call.ColliderSetPosition collider ⟨0, 0, -1⟩)
    let monkey1 ← invoke (Call.CreateGameObject scene "Monkey 1")
    exec (Call.SetPostion monkey1 ⟨0.0, 0.0, 1.0⟩)
    let behaviour ← invoke (Call.Add monkey1 Component.RotatingBehaviour)
    exec (Call.RotationSpeedAssign behaviour ⟨0.0, 0.0, 25.0⟩)
    let renderer ← invoke (Call.Add monkey1 Component.RenderComponent)
    exec (Call.SetMesh renderer monkeyMesh)
    exec (Call.SetMaterial renderer monkeyMaterial)
    let monkey2 ← invoke (Call.CreateGameObject scene "Monkey 1")
    exec (Call.SetPostion monkey2 ⟨1.5, 2.0, 1.0⟩)
    let behaviour ← invoke (Call.Add monkey2 Component.RotatingBehaviour)
    exec (Call.RotationSpeedAssign behaviour ⟨0.0, 0.0, 25.0⟩)
    let renderer ← invoke (Call.Add monkey2 Component.RenderComponent)
    exec (Call.SetMesh renderer monkeyMesh)
    exec (Call.SetMaterial renderer monkeyMaterial)
    let monkey3 ← invoke (Call.CreateGameObject scene "Monkey 1")
    exec (Call.SetPostion monkey3 ⟨1.5, -2.0, 1.0⟩)
    let behaviour ← invoke (Call.Add monkey3 Component.RotatingBehaviour)
    exec (Call.RotationSpeedAssign behaviour ⟨0.0, 0.0, 25.0⟩)
    let renderer ← invoke (Call.Add monkey3 Component.RenderComponent)
    exec (Call.SetMesh renderer monkeyMesh)
    exec (Call.SetMaterial renderer monkeyMaterial)
    let foliageBall1 ← invoke (Call.CreateGameObject scene "Foliage Sphere 1")
    exec (Call.SetPostion foliageBall1 ⟨4.0, -4.0, 7.0⟩)
    let renderer ← invoke (Call.Add foliageBall1 Component.RenderComponent)
    exec (Call.SetMesh renderer sphere)
    exec (Call.SetMaterial renderer foliageMaterial)
    let trunk1 ← invoke (Call.CreateGameObject scene "Tree 1")
    exec (Call.SetPostion trunk1 ⟨4, -4.0, 1.0⟩)
    let renderer ← invoke (Call.Add trunk1 Component.RenderComponent)
    exec (Call.SetMesh renderer boxMesh)
    exec (Call.SetMaterial renderer boxMaterial)
    let trunk2 ← invoke (Call.CreateGameObject scene "Tree 2")
    exec (Call.SetPostion trunk2 ⟨4, -4.0, 2.0⟩)
    let renderer ← invoke (Call.Add trunk2 Component.RenderComponent)
    exec (Call.SetMesh renderer boxMesh)
    exec (Call.SetMaterial renderer boxMaterial)
    let trunk3 ← invoke (Call.CreateGameObject scene "Tree 3")
    exec (Call.SetPostion trunk3 ⟨4, -4.0, 3.0⟩)
    let renderer ← invoke (Call.Add trunk3 Component.RenderComponent)
    exec (Call.SetMesh renderer boxMesh)
    exec (Call.SetMaterial renderer boxMaterial)
    let trunk4 ← invoke (Call.CreateGameObject scene "Tree 4")
    exec (Call.SetPostion trunk4 ⟨4, -4.0, 4.0⟩)
    let renderer ← invoke (Call.Add trunk4 Component.RenderComponent)
    exec (Call.SetMesh renderer boxMesh)
    exec (Call.SetMaterial renderer boxMaterial)
    let trunk5 ← invoke (Call.CreateGameObject scene "Tree 5")
    exec (Call.SetPostion trunk5 ⟨4, -4.0, 5.0⟩)
    let renderer ← invoke (Call.Add trunk5 Component.RenderComponent)
    exec (Call.SetMesh renderer boxMesh)
    exec (Call.SetMaterial renderer boxMaterial)
    let trunk6 ← invoke (Call.CreateGameObject scene "Tree 6")
    exec (Call.SetPostion trunk6 ⟨4, -4.0, 6.0⟩)
    let renderer ← invoke (Call.Add trunk6 Component.RenderComponent)
    exec (Call.SetMesh renderer boxMesh)
    exec (Call.SetMaterial renderer boxMaterial)
    let foliageBall2 ← invoke (Call.CreateGameObject scene "Foliage Sphere 2")
    exec (Call.SetPostion foliageBall2 ⟨4.0, 4.0, 7.0⟩)
    let renderer ← invoke (Call.Add foliageBall2 Component.RenderComponent)
    exec (Call.SetMesh renderer sphere)
    exec (Call.SetMaterial renderer foliageMaterial)
    let trunk7 ← invoke (Call.CreateGameObject scene "Tree 1")
    exec (Call.SetPostion trunk7 ⟨4, 4.0, 1.0⟩)
    let renderer ← invoke (Call.Add trunk7 Component.RenderComponent)
    exec (Call.SetMesh renderer boxMesh)
    exec (Call.SetMaterial renderer boxMaterial)
    let trunk8 ← invoke (Call.CreateGameObject scene "Tree 1")
    exec (Call.SetPostion trunk8 ⟨4, 4.0, 2.0⟩)
    let renderer ← invoke (Call.Add trunk8 Component.RenderComponent)
    exec (Call.SetMesh renderer boxMesh)
    exec (Call.SetMaterial renderer boxMaterial)
    let trunk9 ← invoke (Call.CreateGameObject scene "Tree 1")
    exec (Call.SetPostion trunk9 ⟨4, 4.0, 3.0⟩)
    let renderer ← invoke (Call.Add trunk9 Component.RenderComponent)
    exec (Call.SetMesh renderer boxMesh)
    exec (Call.SetMaterial renderer boxMaterial)
    let trunk10 ← invoke (Call.CreateGameObject scene "Tree 1")
    exec (Call.SetPostion trunk10 ⟨4, 4.0, 4.0⟩)
    let renderer ← invoke (Call.Add trunk10 Component.RenderComponent)
    exec (Call.SetMesh renderer boxMesh)
    exec (Call.SetMaterial renderer boxMaterial)
    let trunk11 ← invoke (Call.CreateGameObject scene "Tree 1")
    exec (Call.SetPostion trunk11 ⟨4, 4.0, 5.0⟩)
    let renderer ← invoke (Call.Add trunk11 Component.RenderComponent)
    exec (Call.SetMesh renderer boxMesh)
    exec (Call.SetMaterial renderer boxMaterial)
    let trunk12 ← invoke (Call.CreateGameObject scene "Tree 1")
    exec (Call.SetPostion trunk12 ⟨4, 4.0, 6.0⟩)
    let renderer ← invoke (Call.Add trunk12 Component.RenderComponent)
    exec (Call.SetMesh renderer boxMesh)
    exec (Call.SetMaterial renderer boxMaterial)
    let uiSprite ← invoke (Call.CreateAsset (Asset.Texture2D "textures/ui-sprite.png"))
    exec (Call.SetDefaultTexture uiSprite)
    exec (Call.SetDefaultBorderRadius 8)
    -- Save the asset manifest for all the resources we just loaded
    exec (Call.SaveManifest "scene-manifest.json")
    -- Save the scene to a JSON file
    exec (Call.Save scene "scene.json")
    -- Send the scene to the application
    exec (Call.LoadScene (LoadSceneArg.scene scene))

/-- `DefaultSceneLayer::OnAppLoad(config)`: the configuration is not looked at. -/
def OnAppLoad {Json : Type} (_config : Json) (filesystem_exists : String → Bool) : Prog Unit :=
  _CreateScene filesystem_exists

end DefaultSceneLayer

namespace DefaultSceneLayer

/-! ### Reading a run -/

/-- The engine whose call at position `k` fails with `e`, and no other. -/
def Engine.failAt (k : Nat) (e : Error) : Engine :=
  fun n _ => if n = k then some e else none

/-- The run of `_CreateScene` from the first call. -/
def sceneRun (eng : Engine) (filesystem_exists : String → Bool) : Outcome Unit :=
  run eng 0 (_CreateScene filesystem_exists)

/-- The run of `OnAppLoad` from the first call. -/
def appLoadRun {Json : Type} (eng : Engine) (config : Json)
    (filesystem_exists : String → Bool) : Outcome Unit :=
  run eng 0 (OnAppLoad config filesystem_exists)

/-- The argument of an `Application::LoadScene` call. -/
def Call.loadSceneArg? : Call → Option LoadSceneArg
  | Call.LoadScene arg => some arg
  | _ => none

/-- The path of a `ResourceManager::SaveManifest` call. -/
def Call.saveManifestPath? : Call → Option String
  | Call.SaveManifest path => some path
  | _ => none

/-- The scene and path of a `Scene::Save` call. -/
def Call.save? : Call → Option (Handle × String)
  | Call.Save scene path => some (scene, path)
  | _ => none

/-- Whether a call creates an engine object: an asset, a scene, a game object, a
component or a collider. -/
def Call.creates : Call → Bool
  | Call.CreateAsset _ => true
  | Call.MakeSharedScene => true
  | Call.CreateGameObject _ _ => true
  | Call.Add _ _ => true
  | Call.BoxColliderCreate _ => true
  | _ => false

/-- The scenes constructed in a run: the positions of its `std::make_shared<Scene>()`
calls. -/
def scenesMade (cs : List Call) : List Handle :=
  (List.range cs.length).filter (fun i => cs[i]? == some Call.MakeSharedScene)

/-- The scene a call that yields a game object takes it from: `CreateGameObject`
creates the object in the scene, `MainCamera->GetGameObject()` is the camera
object that the scene owns. -/
def Call.objectScene? : Call → Option Handle
  | Call.CreateGameObject scene _ => some scene
  | Call.MainCameraGameObject scene => some scene
  | _ => none

/-- The game object a call configures: the receiver of `SetPostion`, `SetRotation`
and `Add<T>`. -/
def Call.gameObject? : Call → Option Handle
  | Call.SetPostion object _ => some object
  | Call.SetRotation object _ => some object
  | Call.Add object _ => some object
  | _ => none

/-- The scene a call acts on, for every call whose receiver is a scene. -/
def Call.sceneReceiver? : Call → Option Handle
  | Call.SetSkyboxTexture scene _ => some scene
  | Call.SetSkyboxShader scene _ => some scene
  | Call.SetSkyboxRotation scene _ => some scene
  | Call.SetColorLUT scene _ _ => some scene
  | Call.LightsResize scene _ => some scene
  | Call.LightPositionAssign scene _ _ => some scene
  | Call.LightColorAssign scene _ _ => some scene
  | Call.LightRangeAssign scene _ _ => some scene
  | Call.MainCameraGameObject scene => some scene
  | Call.CreateGameObject scene _ => some scene
  | Call.Save scene _ => some scene
  | _ => none

/-- The scene of the game object `o` in a run: the scene that the call which
returned `o` took it from. -/
def sceneOfObject (cs : List Call) (o : Handle) : Option Handle :=
  cs[o]?.bind Call.objectScene?

/-- The name given to a `Scene::CreateGameObject` call. -/
def Call.createdName? : Call → Option String
  | Call.CreateGameObject _ name => some name
  | _ => none

/-- The names passed to `CreateGameObject` in a run, in the order of the calls. -/
def createdNames (cs : List Call) : List String :=
  cs.filterMap Call.createdName?

/-- The positions passed to `SetPostion` on the object `o`, in the order of the
calls. -/
def positionsSet (cs : List Call) (o : Handle) : List glm.vec3 :=
  cs.filterMap (fun c =>
    match c with
    | Call.SetPostion object v => if object = o then some v else none
    | _ => none)

/-- The game objects `CreateGameObject` returned in a run, in the order of the
calls, each with its name and the positions set on it. -/
def createdObjects (cs : List Call) : List (String × List glm.vec3) :=
  (List.range cs.length).filterMap (fun i =>
    match cs[i]? with
    | some (Call.CreateGameObject _ name) => some (name, positionsSet cs i)
    | _ => none)

/-- The names of the game objects as the specification lists them, in the order of
creation: `"Plane"`, `"Monkey 1"` three times, `"Foliage Sphere 1"`, `"Tree 1"` to
`"Tree 6"`, `"Foliage Sphere 2"`, then `"Tree 1"` six times. -/
def hardCodedNames : List String :=
  ["Plane", "Monkey 1", "Monkey 1", "Monkey 1", "Foliage Sphere 1",
   "Tree 1", "Tree 2", "Tree 3", "Tree 4", "Tree 5", "Tree 6",
   "Foliage Sphere 2", "Tree 1", "Tree 1", "Tree 1", "Tree 1", "Tree 1", "Tree 1"]

/-- The positions of the 17 objects other than the plane as the specification lists
them, in the order of creation: the monkeys, the first foliage sphere, the tree
boxes at `(4,-4,k)`, the second foliage sphere, the tree boxes at `(4,4,k)`. -/
def hardCodedPositions : List glm.vec3 :=
  [⟨0, 0, 1⟩, ⟨1.5, 2, 1⟩, ⟨1.5, -2, 1⟩, ⟨4, -4, 7⟩,
   ⟨4, -4, 1⟩, ⟨4, -4, 2⟩, ⟨4, -4, 3⟩, ⟨4, -4, 4⟩, ⟨4, -4, 5⟩, ⟨4, -4, 6⟩,
   ⟨4, 4, 7⟩,
   ⟨4, 4, 1⟩, ⟨4, 4, 2⟩, ⟨4, 4, 3⟩, ⟨4, 4, 4⟩, ⟨4, 4, 5⟩, ⟨4, 4, 6⟩]

/-! ### Components, colliders and lights of a run -/

/-- The game objects `CreateGameObject` returned in a run, in the order of the
calls. -/
def createdObjectHandles (cs : List Call) : List Handle :=
  (List.range cs.length).filter (fun i => (cs[i]?.bind Call.createdName?).isSome)

/-- The game objects created with the name `name`. -/
def objectsNamed (cs : List Call) (name : String) : List Handle :=
  (List.range cs.length).filter (fun i => cs[i]?.bind Call.createdName? == some name)

/-- The components of type `T` that `object->Add<T>()` returned for the object `o`. -/
def componentsOf (cs : List Call) (o : Handle) (T : Component) : List Handle :=
  (List.range cs.length).filter (fun i => cs[i]? == some (Call.Add o T))

/-- The `SetMesh` calls on the renderer `r`: the position of each call and the mesh
passed. -/
def meshesSet (cs : List Call) (r : Handle) : List (Nat × Handle) :=
  (List.range cs.length).filterMap (fun i =>
    match cs[i]? with
    | some (Call.SetMesh renderer mesh) => if renderer = r then some (i, mesh) else none
    | _ => none)

/-- The `SetMaterial` calls on the renderer `r`: the position of each call and the
material passed. -/
def materialsSet (cs : List Call) (r : Handle) : List (Nat × Handle) :=
  (List.range cs.length).filterMap (fun i =>
    match cs[i]? with
    | some (Call.SetMaterial renderer material) =>
      if renderer = r then some (i, material) else none
    | _ => none)

/-- Whether the object `h` was returned by `ResourceManager::CreateAsset<MeshResource>`. -/
def isMeshAsset (cs : List Call) (h : Handle) : Bool :=
  match cs[h]? with
  | some (Call.CreateAsset (Asset.MeshResourceFile _)) => true
  | some (Call.CreateAsset Asset.MeshResource) => true
  | _ => false

/-- Whether the object `h` was returned by `ResourceManager::CreateAsset<Material>`. -/
def isMaterialAsset (cs : List Call) (h : Handle) : Bool :=
  match cs[h]? with
  | some (Call.CreateAsset (Asset.Material _)) => true
  | _ => false

/-- The `AddCollider` calls on the rigid body `body`: the object each call returned
and the collider passed. -/
def collidersAdded (cs : List Call) (body : Handle) : List (Handle × Handle) :=
  (List.range cs.length).filterMap (fun i =>
    match cs[i]? with
    | some (Call.AddCollider b collider) => if b = body then some (i, collider) else none
    | _ => none)

/-- The extents given to `BoxCollider::Create` when the collider `c` was made by it. -/
def boxExtents (cs : List Call) (c : Handle) : Option glm.vec3 :=
  match cs[c]? with
  | some (Call.BoxColliderCreate halfExtents) => some halfExtents
  | _ => none

/-- The positions passed to `SetPosition` on the collider `c`, in the order of the
calls. -/
def colliderPositions (cs : List Call) (c : Handle) : List glm.vec3 :=
  cs.filterMap (fun call =>
    match call with
    | Call.ColliderSetPosition collider v => if collider = c then some v else none
    | _ => none)

/-- The colliders attached to the rigid bodies of the objects named `name`: for each,
the extents of the box when `BoxCollider::Create` made it, and the positions set on
it. -/
def collidersOf (cs : List Call) (name : String) : List (Option glm.vec3 × List glm.vec3) :=
  (objectsNamed cs name).flatMap (fun o =>
    (componentsOf cs o Component.RigidBody).flatMap (fun body =>
      (collidersAdded cs body).map (fun pc =>
        (boxExtents cs pc.2, colliderPositions cs pc.1))))

/-- The calls of a run that make a collider. -/
def colliderCreations (cs : List Call) : List Call :=
  cs.filter (fun c =>
    match c with
    | Call.BoxColliderCreate _ => true
    | _ => false)

/-- Modelled from the spec: `BoxCollider` is engine code that is not among the
sources.  A box collider covers the point `(x, y)` of the X/Y plane when the point
lies within the extents of the box on either side of its position; the argument of
`BoxCollider::Create` is read as half extents, the larger of the two readings. -/
def BoxCollider.covers (halfExtents position : glm.vec3) (x y : ℚ) : Bool :=
  decide (position.x - halfExtents.x ≤ x ∧ x ≤ position.x + halfExtents.x
    ∧ position.y - halfExtents.y ≤ y ∧ y ≤ position.y + halfExtents.y)

/-- The scene and the new length of a `Lights.resize` call. -/
def Call.lightsResize? : Call → Option (Handle × Nat)
  | Call.LightsResize scene n => some (scene, n)
  | _ => none

/-- The scene and the index of a call that accesses `Lights[i]`. -/
def Call.lightIndex? : Call → Option (Handle × Nat)
  | Call.LightPositionAssign scene i _ => some (scene, i)
  | Call.LightColorAssign scene i _ => some (scene, i)
  | Call.LightRangeAssign scene i _ => some (scene, i)
  | _ => none

/-- The index of a call that assigns `Lights[i].Position`. -/
def Call.lightPositionIndex? : Call → Option Nat
  | Call.LightPositionAssign _ i _ => some i
  | _ => none

/-- The index of a call that assigns `Lights[i].Color`. -/
def Call.lightColorIndex? : Call → Option Nat
  | Call.LightColorAssign _ i _ => some i
  | _ => none

/-- The length of `scene->Lights` after the calls `cs`, when it is `len` before them;
`none` stands for the length the `Scene` constructor leaves, which the sources do
not show.  Only `Lights.resize` changes the length. -/
def lightsLength (scene : Handle) : Option Nat → List Call → Option Nat
  | len, [] => len
  | len, Call.LightsResize s n :: cs =>
    lightsLength scene (if s = scene then some n else len) cs
  | len, _ :: cs => lightsLength scene len cs

/-- Whether every access `scene->Lights[i]` in the calls `cs` is within the length
the vector has at that call, when it is `len` before them; an access while the
length is not known counts as out of bounds. -/
def lightAccessesInBounds (scene : Handle) : Option Nat → List Call → Bool
  | _, [] => true
  | len, c :: cs =>
    (match c.lightIndex? with
      | some (s, i) =>
        if s = scene then
          (match len with
            | some n => decide (i < n)
            | none => false)
        else true
      | none => true)
    && lightAccessesInBounds scene (lightsLength scene len [c]) cs

/-- The calls of a run before the first `Scene::Save`. -/
def beforeSave (cs : List Call) : List Call :=
  cs.takeWhile (fun c => c.save?.isNone)

/-- The calls of a run before the first `Application::LoadScene`. -/
def beforeLoadScene (cs : List Call) : List Call :=
  cs.takeWhile (fun c => c.loadSceneArg?.isNone)

end DefaultSceneLayer

/-! ## Properties of `DebugWindow::RenderMenuBar` -/

namespace DebugWindow

/-- The frame `RenderMenuBar` leaves, spelled out in terms of what the two controls
answer. -/
theorem frameAfter_eq (d : RenderFlagsDecl) (gui : Gui) (s : EngineState) :
    frameAfter d gui s =
      { engine :=
          { physicsDebugDrawMode :=
              if (gui.DrawModeGui "Physics Debug Mode:" s.physicsDebugDrawMode).1
              then (gui.DrawModeGui "Physics Debug Mode:" s.physicsDebugDrawMode).2
              else s.physicsDebugDrawMode,
            renderFlags :=
              if (gui.Checkbox "Enable Color Correction" (shownChecked d s.renderFlags)).1
              then updatedFlags d s.renderFlags
                (gui.Checkbox "Enable Color Correction" (shownChecked d s.renderFlags)).2
              else s.renderFlags },
        calls :=
          [Call.ApplicationGet, Call.GetLayerRenderLayer, Call.GetPhysicsDebugDrawMode,
            Call.DrawModeGui "Physics Debug Mode:" s.physicsDebugDrawMode]
          ++ (if (gui.DrawModeGui "Physics Debug Mode:" s.physicsDebugDrawMode).1
              then [Call.SetPhysicsDebugDrawMode
                (gui.DrawModeGui "Physics Debug Mode:" s.physicsDebugDrawMode).2]
              else [])
          ++ [Call.Separator, Call.GetRenderFlags,
            Call.Checkbox "Enable Color Correction" (shownChecked d s.renderFlags)]
          ++ (if (gui.Checkbox "Enable Color Correction" (shownChecked d s.renderFlags)).1
              then [Call.SetRenderFlags (updatedFlags d s.renderFlags
                (gui.Checkbox "Enable Color Correction" (shownChecked d s.renderFlags)).2)]
              else []) } := by
  simp only [frameAfter, RenderMenuBar, record, GetPhysicsDebugDrawMode, DrawModeGui,
    SetPhysicsDebugDrawMode, GetRenderFlags, Checkbox, SetRenderFlags, shownChecked]
  cases h1 : (gui.DrawModeGui "Physics Debug Mode:" s.physicsDebugDrawMode).1 <;>
  cases h2 : (gui.Checkbox "Enable Color Correction"
    (RenderFlags.toBool (s.renderFlags &&& d.EnableWarmCorrection))).1 <;>
  simp [h1, h2]

/-- Bit `i` of the complement of `x` in `bits` bits. -/
theorem testBit_complement (bits x i : Nat) :
    (RenderFlags.complement bits x).testBit i = (decide (i < bits) && !x.testBit i) := by
  have hlt : x % 2 ^ bits < 2 ^ bits := Nat.mod_lt _ (Nat.two_pow_pos bits)
  have h := Nat.testBit_two_pow_sub_succ hlt i
  rw [Nat.testBit_mod_two_pow] at h
  rw [RenderFlags.complement, Nat.sub_sub, Nat.add_comm 1, h]
  cases decide (i < bits) <;> simp

/-- Bit `i` of the mask `RenderMenuBar` computes. -/
theorem testBit_updatedFlags (d : RenderFlagsDecl) (f : RenderFlags) (b : Bool) (i : Nat) :
    (updatedFlags d f b).testBit i =
      ((f.testBit i && (decide (i < d.bits) && !d.EnableWarmCorrection.testBit i))
        || (b && d.EnableWarmCorrection.testBit i)) := by
  rw [updatedFlags, Nat.testBit_or, Nat.testBit_and, testBit_complement]
  cases b <;> simp [RenderFlags.None]

/-- The mask `RenderMenuBar` computes, restricted to `EnableWarmCorrection`. -/
theorem updatedFlags_and (d : RenderFlagsDecl) (f : RenderFlags) (b : Bool) :
    updatedFlags d f b &&& d.EnableWarmCorrection
      = if b then d.EnableWarmCorrection else 0 := by
  apply Nat.eq_of_testBit_eq
  intro i
  rw [Nat.testBit_and, testBit_updatedFlags]
  cases b
  · cases hbit : d.EnableWarmCorrection.testBit i <;> simp
  · cases hbit : d.EnableWarmCorrection.testBit i <;> simp [hbit]

end DebugWindow

namespace DebugWindow

/-- The masks passed to `SetRenderFlags` in a frame, and the flags the frame leaves. -/
theorem frameAfter_renderFlags (d : RenderFlagsDecl) (gui : Gui) (s : EngineState) :
    setRenderFlagsArgs (frameAfter d gui s).calls
        = (if (checkboxAnswer d gui s).1
            then [updatedFlags d s.renderFlags (checkboxAnswer d gui s).2] else [])
      ∧ (frameAfter d gui s).engine.renderFlags
        = (if (checkboxAnswer d gui s).1
            then updatedFlags d s.renderFlags (checkboxAnswer d gui s).2
            else s.renderFlags) := by
  rw [frameAfter_eq]
  simp only [checkboxAnswer]
  split_ifs <;> simp [setRenderFlagsArgs]

/-- C1: `RenderMenuBar` writes the render flags back if and only if the
"Enable Color Correction" checkbox reports a change.  For every current engine
state and every behaviour of the controls, `SetRenderFlags` is called exactly once
(with the updated mask, which becomes the flags of the engine) when the checkbox
returns true, and is not called at all, the flags staying as they were, when it
returns false. -/
theorem RenderMenuBar_SetRenderFlags_iff_changed
    (d : RenderFlagsDecl) (gui : Gui) (s : EngineState) :
    (setRenderFlagsArgs (frameAfter d gui s).calls).length
        = (if (checkboxAnswer d gui s).1 then 1 else 0)
      ∧ setRenderFlagsArgs (frameAfter d gui s).calls
        = (if (checkboxAnswer d gui s).1
            then [updatedFlags d s.renderFlags (checkboxAnswer d gui s).2] else [])
      ∧ (frameAfter d gui s).engine.renderFlags
        = (if (checkboxAnswer d gui s).1
            then updatedFlags d s.renderFlags (checkboxAnswer d gui s).2
            else s.renderFlags) := by
  obtain ⟨hargs, hflags⟩ := frameAfter_renderFlags d gui s
  refine ⟨?_, hargs, hflags⟩
  rw [hargs]
  split_ifs <;> rfl

/-- C2: the checkbox is passed through to the engine flag.  When the mask of
`EnableWarmCorrection` is not empty and the checkbox reports a change leaving the
Boolean `b` in its value, the one mask passed to `SetRenderFlags` has
`EnableWarmCorrection` set exactly when `b` is true: the mask restricted to
`EnableWarmCorrection` is all of it when `b` is true and empty when `b` is false,
so the test the source itself uses reads `b` back, and when `EnableWarmCorrection`
is the single bit `k`, bit `k` of the mask is `b`. -/
theorem RenderMenuBar_flag_follows_checkbox
    (d : RenderFlagsDecl) (gui : Gui) (s : EngineState)
    (hE : 0 < d.EnableWarmCorrection)
    (hchanged : (checkboxAnswer d gui s).1 = true) :
    setRenderFlagsArgs (frameAfter d gui s).calls
        = [updatedFlags d s.renderFlags (checkboxAnswer d gui s).2]
      ∧ updatedFlags d s.renderFlags (checkboxAnswer d gui s).2 &&& d.EnableWarmCorrection
        = (if (checkboxAnswer d gui s).2 then d.EnableWarmCorrection else 0)
      ∧ RenderFlags.toBool
          (updatedFlags d s.renderFlags (checkboxAnswer d gui s).2 &&& d.EnableWarmCorrection)
        = (checkboxAnswer d gui s).2
      ∧ ∀ k : Nat, d.EnableWarmCorrection = 2 ^ k →
          (updatedFlags d s.renderFlags (checkboxAnswer d gui s).2).testBit k
            = (checkboxAnswer d gui s).2 := by
  have hand := updatedFlags_and d s.renderFlags (checkboxAnswer d gui s).2
  refine ⟨?_, hand, ?_, ?_⟩
  · have h := (frameAfter_renderFlags d gui s).1
    rw [hchanged] at h
    simpa using h
  · rw [hand]
    cases (checkboxAnswer d gui s).2
    · simp [RenderFlags.toBool]
    · simp [RenderFlags.toBool]
      exact Nat.pos_iff_ne_zero.mp hE
  · intro k hk
    have hbit : (updatedFlags d s.renderFlags (checkboxAnswer d gui s).2
        &&& d.EnableWarmCorrection).testBit k
        = (updatedFlags d s.renderFlags (checkboxAnswer d gui s).2).testBit k := by
      rw [Nat.testBit_and, hk, Nat.testBit_two_pow_self, Bool.and_true]
    rw [← hbit, hand]
    cases (checkboxAnswer d gui s).2
    · simp
    · simp [hk, Nat.testBit_two_pow_self]

/-- C2, at a concrete input: 32-bit flags with `EnableWarmCorrection` the lowest
bit, the flags `6`, and the user clicking the checkbox. -/
theorem RenderMenuBar_flag_follows_checkbox_witness :
    setRenderFlagsArgs
        (frameAfter { bits := 32, EnableWarmCorrection := 1 } Gui.clicked
          { physicsDebugDrawMode := 0, renderFlags := 6 }).calls
      = [updatedFlags { bits := 32, EnableWarmCorrection := 1 } 6 true]
    ∧ updatedFlags { bits := 32, EnableWarmCorrection := 1 } 6 true = 7 := by
  have h := RenderMenuBar_flag_follows_checkbox
    { bits := 32, EnableWarmCorrection := 1 } Gui.clicked
    { physicsDebugDrawMode := 0, renderFlags := 6 } (by decide) (by decide)
  exact ⟨h.1, by decide⟩

/-- C3: the update touches only `EnableWarmCorrection`.  For flags `f` that fit the
underlying type, every checkbox value `b` and every bit `i` outside
`EnableWarmCorrection`, the mask `(f & ~EnableWarmCorrection) | (b ? ... : None)`
agrees with `f` at bit `i`; so does every mask `RenderMenuBar` passes to
`SetRenderFlags`, and so do the flags of the engine after the frame. -/
theorem RenderMenuBar_touches_one_flag
    (d : RenderFlagsDecl) (gui : Gui) (s : EngineState) (i : Nat)
    (hfits : s.renderFlags < 2 ^ d.bits)
    (hother : d.EnableWarmCorrection.testBit i = false) :
    (∀ b : Bool, (updatedFlags d s.renderFlags b).testBit i = s.renderFlags.testBit i)
      ∧ (∀ m ∈ setRenderFlagsArgs (frameAfter d gui s).calls,
          m.testBit i = s.renderFlags.testBit i)
      ∧ (frameAfter d gui s).engine.renderFlags.testBit i = s.renderFlags.testBit i := by
  have key : ∀ b : Bool,
      (updatedFlags d s.renderFlags b).testBit i = s.renderFlags.testBit i := by
    intro b
    rw [testBit_updatedFlags, hother]
    by_cases hi : i < d.bits
    · simp [hi]
    · have hlt : s.renderFlags < 2 ^ i :=
        Nat.lt_of_lt_of_le hfits (Nat.pow_le_pow_right (by decide) (Nat.le_of_not_lt hi))
      simp [hi, Nat.testBit_lt_two_pow hlt]
  obtain ⟨hargs, hflags⟩ := frameAfter_renderFlags d gui s
  refine ⟨key, ?_, ?_⟩
  · intro m hm
    rw [hargs] at hm
    cases hc : (checkboxAnswer d gui s).1
    · rw [hc] at hm; simp at hm
    · rw [hc] at hm
      simp only [if_true, List.mem_singleton] at hm
      rw [hm]; exact key _
  · rw [hflags]
    cases hc : (checkboxAnswer d gui s).1
    · simp
    · simp only [if_true]; exact key _

/-- C3, at a concrete input: 32-bit flags with `EnableWarmCorrection` the lowest
bit, the flags `6`, the user clicking the checkbox, and bit 1. -/
theorem RenderMenuBar_touches_one_flag_witness :
    (frameAfter { bits := 32, EnableWarmCorrection := 1 } Gui.clicked
        { physicsDebugDrawMode := 0, renderFlags := 6 }).engine.renderFlags.testBit 1
      = Nat.testBit 6 1 :=
  (RenderMenuBar_touches_one_flag { bits := 32, EnableWarmCorrection := 1 } Gui.clicked
    { physicsDebugDrawMode := 0, renderFlags := 6 } 1 (by decide) (by decide)).2.2

/-- C4: `RenderMenuBar` writes the physics debug-draw mode back if and only if the
mode control reports a change.  The mode shown to `DrawModeGui` is the one read
from the current scene; `SetPhysicsDebugDrawMode` is called, once, with the value
the control produced exactly when `DrawModeGui` returns true, and that value
becomes the mode of the scene; when it returns false there is no such call and
the mode of the scene is unchanged. -/
theorem RenderMenuBar_SetPhysicsDebugDrawMode_iff_changed
    (d : RenderFlagsDecl) (gui : Gui) (s : EngineState) :
    drawModeGuiArgs (frameAfter d gui s).calls
        = [("Physics Debug Mode:", s.physicsDebugDrawMode)]
      ∧ setPhysicsDebugDrawModeArgs (frameAfter d gui s).calls
        = (if (drawModeAnswer gui s).1 then [(drawModeAnswer gui s).2] else [])
      ∧ (frameAfter d gui s).engine.physicsDebugDrawMode
        = (if (drawModeAnswer gui s).1 then (drawModeAnswer gui s).2
            else s.physicsDebugDrawMode) := by
  rw [frameAfter_eq]
  simp only [drawModeAnswer]
  split_ifs <;> simp [drawModeGuiArgs, setPhysicsDebugDrawModeArgs]

/-- C5: the state the checkbox shows is read from the engine.  For every flag mask
`f` that `GetRenderFlags` returns, the one Boolean handed to `ImGui::Checkbox` is
true if and only if `EnableWarmCorrection` is set in `f`, that is `f &
EnableWarmCorrection` is not empty; when `EnableWarmCorrection` is the single bit
`k`, the Boolean is bit `k` of `f`. -/
theorem RenderMenuBar_checkbox_shows_flag
    (d : RenderFlagsDecl) (gui : Gui) (s : EngineState) :
    checkboxArgs (frameAfter d gui s).calls
        = [("Enable Color Correction", shownChecked d s.renderFlags)]
      ∧ (shownChecked d s.renderFlags = true ↔ s.renderFlags &&& d.EnableWarmCorrection ≠ 0)
      ∧ ∀ k : Nat, d.EnableWarmCorrection = 2 ^ k →
          shownChecked d s.renderFlags = s.renderFlags.testBit k := by
  refine ⟨?_, ?_, ?_⟩
  · rw [frameAfter_eq]
    split_ifs <;> simp [checkboxArgs]
  · simp [shownChecked, RenderFlags.toBool]
  · intro k hk
    rw [shownChecked, hk, RenderFlags.toBool, Nat.and_two_pow]
    cases s.renderFlags.testBit k <;> simp

end DebugWindow

/-! ## Properties of runs -/

namespace DefaultSceneLayer

/-- A run in which no call failed is the run on the engine that never fails. -/
theorem run_eq_noFailure {α : Type} (eng : Engine) (p : Prog α) :
    ∀ n : Nat, (∀ ev ∈ (run eng n p).events, ev.error = none) →
      run eng n p = run Engine.noFailure n p := by
  induction p with
  | done a => intro n _; rfl
  | call c rest ih =>
    intro n h
    have h2 : run Engine.noFailure n (Prog.call c rest) =
        { events := { call := c, error := none } ::
            (run Engine.noFailure (n + 1) (rest n)).events,
          result := (run Engine.noFailure (n + 1) (rest n)).result } := by
      simp only [run, Engine.noFailure]
    cases hE : eng n c with
    | none =>
      have h1 : run eng n (Prog.call c rest) =
          { events := { call := c, error := none } :: (run eng (n + 1) (rest n)).events,
            result := (run eng (n + 1) (rest n)).result } := by
        simp only [run, hE]
      rw [h1] at h
      rw [h1, h2, ih n (n + 1) (fun ev hev => h ev (List.mem_cons_of_mem _ hev))]
    | some e =>
      have h1 : run eng n (Prog.call c rest) =
          { events := [{ call := c, error := some e }], result := Except.error e } := by
        simp only [run, hE]
      rw [h1] at h
      have hbad := h _ (List.mem_singleton.mpr rfl)
      simp at hbad

/-- The calls of any run are an initial segment of the calls of the run in which
nothing fails. -/
theorem run_calls_initial {α : Type} (eng : Engine) (p : Prog α) :
    ∀ n : Nat, (run eng n p).calls <+: (run Engine.noFailure n p).calls := by
  induction p with
  | done a => intro n; exact List.prefix_refl _
  | call c rest ih =>
    intro n
    have h2 : (run Engine.noFailure n (Prog.call c rest)).calls =
        c :: (run Engine.noFailure (n + 1) (rest n)).calls := by
      simp only [run, Engine.noFailure, Outcome.calls, List.map_cons]
    cases hE : eng n c with
    | none =>
      have h1 : (run eng n (Prog.call c rest)).calls =
          c :: (run eng (n + 1) (rest n)).calls := by
        simp only [run, hE, Outcome.calls, List.map_cons]
      rw [h1, h2]
      exact (List.prefix_cons_inj c).mpr (ih n (n + 1))
    | some e =>
      have h1 : (run eng n (Prog.call c rest)).calls = [c] := by
        simp only [run, hE, Outcome.calls, List.map_cons, List.map_nil]
      rw [h1, h2]
      exact (List.prefix_cons_inj c).mpr List.nil_prefix

/-- A call that failed ended the run with its error: it is the last event, and every
event before it returned. -/
theorem run_failed_event {α : Type} (eng : Engine) (p : Prog α) (c : Call) (e : Error) :
    ∀ n : Nat, { call := c, error := some e } ∈ (run eng n p).events →
      (run eng n p).result = Except.error e ∧
      ∃ pre : List Event, (run eng n p).events = pre ++ [{ call := c, error := some e }] ∧
        ∀ ev ∈ pre, ev.error = none := by
  induction p with
  | done a => intro n h; simp [run] at h
  | call c' rest ih =>
    intro n h
    cases hE : eng n c' with
    | none =>
      have h1 : run eng n (Prog.call c' rest) =
          { events := { call := c', error := none } :: (run eng (n + 1) (rest n)).events,
            result := (run eng (n + 1) (rest n)).result } := by
        simp only [run, hE]
      rw [h1] at h ⊢
      have hmem : { call := c, error := some e } ∈ (run eng (n + 1) (rest n)).events := by
        rcases List.mem_cons.mp h with h0 | h0
        · simp at h0
        · exact h0
      obtain ⟨hres, pre, hpre, hall⟩ := ih n (n + 1) hmem
      refine ⟨hres, { call := c', error := none } :: pre, ?_, ?_⟩
      · simp only [hpre, List.cons_append]
      · intro ev hev
        rcases List.mem_cons.mp hev with h0 | h0
        · rw [h0]
        · exact hall ev h0
    | some e' =>
      have h1 : run eng n (Prog.call c' rest) =
          { events := [{ call := c', error := some e' }], result := Except.error e' } := by
        simp only [run, hE]
      rw [h1] at h ⊢
      have h0 := List.mem_singleton.mp h
      simp only [Event.mk.injEq, Option.some.injEq] at h0
      obtain ⟨hc, he⟩ := h0
      subst hc he
      exact ⟨rfl, [], rfl, fun _ hev => absurd hev (List.not_mem_nil _)⟩

/-- A run that ended with an error made a call that failed with it. -/
theorem run_failure_event {α : Type} (eng : Engine) (p : Prog α) (e : Error) :
    ∀ n : Nat, (run eng n p).result = Except.error e →
      ∃ c, { call := c, error := some e } ∈ (run eng n p).events := by
  induction p with
  | done a => intro n h; simp [run] at h
  | call c' rest ih =>
    intro n h
    cases hE : eng n c' with
    | none =>
      have h1 : run eng n (Prog.call c' rest) =
          { events := { call := c', error := none } :: (run eng (n + 1) (rest n)).events,
            result := (run eng (n + 1) (rest n)).result } := by
        simp only [run, hE]
      rw [h1] at h ⊢
      obtain ⟨c, hc⟩ := ih n (n + 1) h
      exact ⟨c, List.mem_cons_of_mem _ hc⟩
    | some e' =>
      have h1 : run eng n (Prog.call c' rest) =
          { events := [{ call := c', error := some e' }], result := Except.error e' } := by
        simp only [run, hE]
      rw [h1] at h ⊢
      simp only [Except.error.injEq] at h
      subst h
      exact ⟨c', List.mem_singleton.mpr rfl⟩

/-- The toggle is off: whatever the file system holds, `_CreateScene` is the program
of its generate branch. -/
theorem CreateScene_eq (fs : String → Bool) :
    _CreateScene fs = _CreateScene (fun _ => false) := rfl

/-- A run of `_CreateScene` in which no call failed is the complete run. -/
theorem sceneRun_eq_complete (eng : Engine) (fs : String → Bool)
    (h : ∀ ev ∈ (sceneRun eng fs).events, ev.error = none) :
    sceneRun eng fs = sceneRun Engine.noFailure (fun _ => false) := by
  unfold sceneRun at h ⊢
  rw [run_eq_noFailure eng _ 0 h, CreateScene_eq fs]

/-- The calls of any run of `_CreateScene` are an initial segment of the complete
run. -/
theorem sceneRun_calls_initial (eng : Engine) (fs : String → Bool) :
    (sceneRun eng fs).calls <+: (sceneRun Engine.noFailure (fun _ => false)).calls := by
  unfold sceneRun
  rw [CreateScene_eq fs]
  exact run_calls_initial eng _ 0

/-- An initial segment that is followed by one more element lies within the list
without its last element. -/
theorem initial_dropLast_of_concat {α : Type} (l : List α) (x : α) (m : List α)
    (h : l ++ [x] <+: m) : l <+: m.dropLast := by
  obtain ⟨t, rfl⟩ := h
  rcases List.eq_nil_or_concat t with rfl | ⟨t', y, rfl⟩
  · simp
  · rw [List.concat_eq_append, ← List.append_assoc, List.dropLast_concat, List.append_assoc]
    exact List.prefix_append _ _

/-- A run of a program without a value that returned normally has the result `ok`. -/
theorem result_of_succeeded (o : Outcome Unit) (h : o.succeeded = true) :
    o.result = Except.ok () := by
  cases hres : o.result with
  | ok u => rfl
  | error e => simp [Outcome.succeeded, hres] at h

end DefaultSceneLayer

/-! ## Properties of `DefaultSceneLayer::_CreateScene` -/

namespace DefaultSceneLayer

/-- In the complete run, `LoadScene` is called once, with the scene made at
position 28. -/
theorem complete_loadSceneArgs :
    (sceneRun Engine.noFailure (fun _ => false)).calls.filterMap Call.loadSceneArg?
      = [LoadSceneArg.scene 28] := by
  decide!

/-- In the complete run, no call before the last one is a `LoadScene`. -/
theorem complete_dropLast_loadSceneArgs :
    (sceneRun Engine.noFailure (fun _ => false)).calls.dropLast.filterMap Call.loadSceneArg?
      = [] := by
  decide!

/-- C6: the scene builder takes no input.  Whatever configuration `OnAppLoad` is
given and whatever the file system holds (a file `scene.json` or none), it is the
same program, that of the generate branch; in every run of it, whatever the engine
does, `LoadScene` is never called with a path, `"scene.json"` or any other, and the
calls made are an initial segment of one fixed list of 223 calls built from the
literals of the source, which starts with the first statement of the generate
branch. -/
theorem OnAppLoad_takes_no_input {Json Json' : Type} (config : Json) (config' : Json')
    (fs fs' : String → Bool) (eng : Engine) :
    OnAppLoad config fs = OnAppLoad config' fs'
      ∧ OnAppLoad config fs = _CreateScene (fun _ => false)
      ∧ (∀ p : String,
          Call.LoadScene (LoadSceneArg.path p) ∉ (appLoadRun eng config fs).calls)
      ∧ (appLoadRun eng config fs).calls
          <+: (sceneRun Engine.noFailure (fun _ => false)).calls
      ∧ (sceneRun Engine.noFailure (fun _ => false)).calls.length = 223
      ∧ (sceneRun Engine.noFailure (fun _ => false)).calls.take 2
          = [Call.ApplicationGet,
             Call.CreateAsset (Asset.ShaderProgram [
               (ShaderPartType.Vertex, "shaders/vertex_shaders/basic.glsl"),
               (ShaderPartType.Fragment,
                 "shaders/fragment_shaders/frag_environment_reflective.glsl")])] := by
  have hpre : (appLoadRun eng config fs).calls
      <+: (sceneRun Engine.noFailure (fun _ => false)).calls :=
    sceneRun_calls_initial eng fs
  refine ⟨rfl, rfl, ?_, hpre, by decide!, by decide!⟩
  intro p hmem
  have hin : LoadSceneArg.path p ∈
      (sceneRun Engine.noFailure (fun _ => false)).calls.filterMap Call.loadSceneArg? :=
    List.mem_filterMap.mpr ⟨_, hpre.subset hmem, rfl⟩
  rw [complete_loadSceneArgs] at hin
  simp at hin

/-- C7: on a run in which no engine call fails, `_CreateScene` returns, and it ends
with exactly three effects in this order: the resource manifest is saved to
`"scene-manifest.json"`, the scene is saved to `"scene.json"`, and that same scene,
the only one the run made, is handed to the application with `LoadScene`.  None of
the calls before them is a `SaveManifest`, a `Save` or a `LoadScene`, so each of
the three is performed exactly once, and none of the three creates a game object
or a resource. -/
theorem CreateScene_ends_with_save_and_load (eng : Engine) (fs : String → Bool)
    (hok : ∀ ev ∈ (sceneRun eng fs).events, ev.error = none) :
    (sceneRun eng fs).result = Except.ok ()
      ∧ ∃ (init : List Call) (scene : Handle),
          (sceneRun eng fs).calls
            = init ++ [Call.SaveManifest "scene-manifest.json",
                Call.Save scene "scene.json",
                Call.LoadScene (LoadSceneArg.scene scene)]
          ∧ scenesMade (sceneRun eng fs).calls = [scene]
          ∧ init.filterMap Call.saveManifestPath? = []
          ∧ init.filterMap Call.save? = []
          ∧ init.filterMap Call.loadSceneArg? = []
          ∧ ((sceneRun eng fs).calls.drop init.length).all (fun c => !c.creates) = true := by
  rw [sceneRun_eq_complete eng fs hok]
  refine ⟨result_of_succeeded _ (by decide!),
    (sceneRun Engine.noFailure (fun _ => false)).calls.take 220, 28, ?_⟩
  decide!

/-- C7, on the engine on which no call fails, with a file `scene.json` present. -/
theorem CreateScene_ends_with_save_and_load_witness :
    (sceneRun Engine.noFailure (fun _ => true)).result = Except.ok () :=
  (CreateScene_ends_with_save_and_load Engine.noFailure (fun _ => true) (by decide!)).1

/-- C8: every game object is in exactly one scene.  On a run in which no engine
call fails, `_CreateScene` constructs exactly one scene; each of the 19 calls that
yield a game object (18 `CreateGameObject` calls and the main camera of the scene)
takes it from that scene; every game object the run configures (with `SetPostion`,
`SetRotation` or `Add<T>`) is one of those objects of that scene; every call whose
receiver is a scene acts on that scene; and that scene is the one passed, once, to
`LoadScene`.  The run has no call that creates an object elsewhere or moves one. -/
theorem CreateScene_objects_in_one_scene (eng : Engine) (fs : String → Bool)
    (hok : ∀ ev ∈ (sceneRun eng fs).events, ev.error = none) :
    ∃ scene : Handle,
      scenesMade (sceneRun eng fs).calls = [scene]
        ∧ (sceneRun eng fs).calls.filterMap Call.objectScene? = List.replicate 19 scene
        ∧ (∀ o ∈ (sceneRun eng fs).calls.filterMap Call.gameObject?,
            sceneOfObject (sceneRun eng fs).calls o = some scene)
        ∧ (∀ s ∈ (sceneRun eng fs).calls.filterMap Call.sceneReceiver?, s = scene)
        ∧ (sceneRun eng fs).calls.filterMap Call.loadSceneArg?
            = [LoadSceneArg.scene scene] := by
  rw [sceneRun_eq_complete eng fs hok]
  exact ⟨28, by decide!⟩

/-- C8, on the engine on which no call fails, with no file `scene.json`. -/
theorem CreateScene_objects_in_one_scene_witness :
    ∃ scene : Handle,
      scenesMade (sceneRun Engine.noFailure (fun _ => false)).calls = [scene]
        ∧ (sceneRun Engine.noFailure (fun _ => false)).calls.filterMap Call.loadSceneArg?
            = [LoadSceneArg.scene scene] := by
  obtain ⟨scene, h1, _, _, _, h5⟩ :=
    CreateScene_objects_in_one_scene Engine.noFailure (fun _ => false) (by decide!)
  exact ⟨scene, h1, h5⟩

/-- C9: failures are not handled by the scene builder.  With every engine call able
to fail, if a call of `_CreateScene` fails with an error then `_CreateScene` ends
with that same error; the failed call is the last call of the run, so no later
step runs, and every call before it returned; and unless the failed call is the
final `LoadScene` itself, `LoadScene` is not called at all, so no partially built
scene is handed to the application. -/
theorem CreateScene_failure_propagates (eng : Engine) (fs : String → Bool)
    (c : Call) (e : Error)
    (hfail : { call := c, error := some e } ∈ (sceneRun eng fs).events) :
    (sceneRun eng fs).result = Except.error e
      ∧ (sceneRun eng fs).events.getLast? = some { call := c, error := some e }
      ∧ (∀ ev ∈ (sceneRun eng fs).events.dropLast, ev.error = none)
      ∧ (c.loadSceneArg? = none →
          (sceneRun eng fs).calls.filterMap Call.loadSceneArg? = []) := by
  obtain ⟨hres, pre, hpre, hall⟩ := run_failed_event eng (_CreateScene fs) c e 0 hfail
  have hpre' : (sceneRun eng fs).events = pre ++ [{ call := c, error := some e }] := hpre
  refine ⟨hres, ?_, ?_, ?_⟩
  · rw [hpre']; simp
  · rw [hpre', List.dropLast_concat]; exact hall
  · intro hc
    have hcalls : (sceneRun eng fs).calls = pre.map Event.call ++ [c] := by
      simp [Outcome.calls, hpre']
    have hseg := sceneRun_calls_initial eng fs
    rw [hcalls] at hseg
    have hinit := initial_dropLast_of_concat _ _ _ hseg
    have hnone : (pre.map Event.call).filterMap Call.loadSceneArg? = [] := by
      have h := hinit.filterMap Call.loadSceneArg?
      rw [complete_dropLast_loadSceneArgs] at h
      exact List.prefix_nil.mp h
    rw [hcalls, List.filterMap_append, hnone]
    simp [hc]

/-- C9, on the engine whose call at position 5 (the creation of the third shader)
fails with `"shader compilation failed"`. -/
theorem CreateScene_failure_propagates_witness :
    (sceneRun (Engine.failAt 5 "shader compilation failed") (fun _ => true)).result
        = Except.error "shader compilation failed"
      ∧ (sceneRun (Engine.failAt 5 "shader compilation failed") (fun _ => true)).calls.length
        = 6 :=
  ⟨(CreateScene_failure_propagates (Engine.failAt 5 "shader compilation failed")
      (fun _ => true)
      (Call.CreateAsset (Asset.ShaderProgram [
        (ShaderPartType.Vertex, "shaders/vertex_shaders/basic.glsl"),
        (ShaderPartType.Fragment, "shaders/fragment_shaders/textured_specular.glsl")]))
      "shader compilation failed" (by decide!)).1,
    by decide!⟩

/-- C10: calling the scene builder produces the hard-coded objects.  On a run in
which no engine call fails, `_CreateScene` calls `CreateGameObject` exactly 18
times, with the names `"Plane"`, `"Monkey 1"` three times, `"Foliage Sphere 1"`,
`"Tree 1"` to `"Tree 6"`, `"Foliage Sphere 2"` and `"Tree 1"` six times, in this
order; no position is set on the plane, and on each of the other 17 objects
exactly one position is set, the listed literal; the 17 positions are pairwise
distinct. -/
theorem CreateScene_creates_hard_coded_objects (eng : Engine) (fs : String → Bool)
    (hok : ∀ ev ∈ (sceneRun eng fs).events, ev.error = none) :
    createdNames (sceneRun eng fs).calls = hardCodedNames
      ∧ (createdNames (sceneRun eng fs).calls).length = 18
      ∧ createdObjects (sceneRun eng fs).calls
          = ("Plane", []) ::
              (hardCodedNames.tail.zip hardCodedPositions).map (fun np => (np.1, [np.2]))
      ∧ hardCodedPositions.length = 17
      ∧ hardCodedPositions.Nodup := by
  rw [sceneRun_eq_complete eng fs hok]
  decide!

/-- C10, on the engine on which no call fails, with a file `scene.json` present. -/
theorem CreateScene_creates_hard_coded_objects_witness :
    createdNames (sceneRun Engine.noFailure (fun _ => true)).calls = hardCodedNames :=
  (CreateScene_creates_hard_coded_objects Engine.noFailure (fun _ => true) (by decide!)).1

end DefaultSceneLayer

/-! ## Writing back the value in force -/

namespace DebugWindow

/-- Applying the update of `RenderMenuBar` twice with the same checkbox value gives
the mask that applying it once gives. -/
theorem updatedFlags_idempotent (d : RenderFlagsDecl) (f : RenderFlags) (b : Bool) :
    updatedFlags d (updatedFlags d f b) b = updatedFlags d f b := by
  apply Nat.eq_of_testBit_eq
  intro i
  rw [testBit_updatedFlags, testBit_updatedFlags]
  cases f.testBit i <;> cases decide (i < d.bits) <;>
    cases d.EnableWarmCorrection.testBit i <;> cases b <;> rfl

/-- When `EnableWarmCorrection` is the single bit `k`, the Boolean shown by the
checkbox is bit `k` of the flags. -/
theorem shownChecked_eq_testBit (d : RenderFlagsDecl) (f : RenderFlags) (k : Nat)
    (hbit : d.EnableWarmCorrection = 2 ^ k) :
    shownChecked d f = f.testBit k := by
  rw [shownChecked, hbit, RenderFlags.toBool, Nat.and_two_pow]
  cases f.testBit k <;> simp

/-- When `EnableWarmCorrection` is a single bit and the flags fit the underlying
type, the update with the value the checkbox was shown gives the flags back. -/
theorem updatedFlags_shownChecked (d : RenderFlagsDecl) (f : RenderFlags) (k : Nat)
    (hbit : d.EnableWarmCorrection = 2 ^ k) (hfits : f < 2 ^ d.bits) :
    updatedFlags d f (shownChecked d f) = f := by
  apply Nat.eq_of_testBit_eq
  intro i
  rw [testBit_updatedFlags, shownChecked_eq_testBit d f k hbit, hbit, Nat.testBit_two_pow]
  by_cases hki : k = i
  · subst hki
    simp
  · by_cases hi : i < d.bits
    · simp [hki, hi]
    · have hlt : f < 2 ^ i :=
        Nat.lt_of_lt_of_le hfits (Nat.pow_le_pow_right (by decide) (Nat.le_of_not_lt hi))
      simp [hki, hi, Nat.testBit_lt_two_pow hlt]

/-- C14: writing back the value already in force is the identity on the flag mask.
When `EnableWarmCorrection` is a single bit and the flags `f` fit the underlying
type, if the checkbox reports a change while the value `b` it leaves equals the
state of `EnableWarmCorrection` in `f`, then the one mask passed to
`SetRenderFlags`, `(f & ~EnableWarmCorrection) | (b ? EnableWarmCorrection : None)`,
equals `f`, and the flags of the engine after the frame are `f`.  For every mask
and every `b`, applying the update twice with the same `b` gives the same mask as
applying it once. -/
theorem RenderMenuBar_same_value_is_identity
    (d : RenderFlagsDecl) (gui : Gui) (s : EngineState) (k : Nat)
    (hbit : d.EnableWarmCorrection = 2 ^ k)
    (hfits : s.renderFlags < 2 ^ d.bits)
    (hchanged : (checkboxAnswer d gui s).1 = true)
    (hsame : (checkboxAnswer d gui s).2 = shownChecked d s.renderFlags) :
    updatedFlags d s.renderFlags (checkboxAnswer d gui s).2 = s.renderFlags
      ∧ setRenderFlagsArgs (frameAfter d gui s).calls = [s.renderFlags]
      ∧ (frameAfter d gui s).engine.renderFlags = s.renderFlags
      ∧ ∀ (f : RenderFlags) (b : Bool),
          updatedFlags d (updatedFlags d f b) b = updatedFlags d f b := by
  have hid : updatedFlags d s.renderFlags (checkboxAnswer d gui s).2 = s.renderFlags := by
    rw [hsame]
    exact updatedFlags_shownChecked d s.renderFlags k hbit hfits
  obtain ⟨hargs, hflags⟩ := frameAfter_renderFlags d gui s
  rw [hchanged, hid] at hargs hflags
  exact ⟨hid, by simpa using hargs, by simpa using hflags,
    fun f b => updatedFlags_idempotent d f b⟩

/-- C14, at a concrete input: 32-bit flags with `EnableWarmCorrection` the lowest
bit, the flags `6`, and a checkbox that reports a change while leaving the value
it was shown. -/
theorem RenderMenuBar_same_value_is_identity_witness :
    setRenderFlagsArgs
        (frameAfter { bits := 32, EnableWarmCorrection := 1 } Gui.reconfirmed
          { physicsDebugDrawMode := 0, renderFlags := 6 }).calls
      = [6] :=
  (RenderMenuBar_same_value_is_identity
    { bits := 32, EnableWarmCorrection := 1 } Gui.reconfirmed
    { physicsDebugDrawMode := 0, renderFlags := 6 } 0
    (by decide) (by decide) (by decide) (by decide)).2.1

end DebugWindow

/-! ## Colliders, render components and lights of `_CreateScene` -/

namespace DefaultSceneLayer

/-- C11: the collider of the `"Plane"` object is not a plane collider.  In the
complete run the only collider the source makes is `BoxCollider::Create` with the
extents `(50, 50, 1)`; it is the one collider attached to the rigid body of the
`"Plane"` object, and it is placed at `(0, 0, -1)`.  Read as half extents, the box
covers `(50, 0)` but not `(51, 0)`, nor any point with `x` beyond 50, so it does
not extend infinitely along the X and Y axes as the comment on it says. -/
theorem CreateScene_plane_collider_is_finite_box :
    collidersOf (sceneRun Engine.noFailure (fun _ => false)).calls "Plane"
        = [(some ⟨50, 50, 1⟩, [⟨0, 0, -1⟩])]
      ∧ colliderCreations (sceneRun Engine.noFailure (fun _ => false)).calls
        = [Call.BoxColliderCreate ⟨50, 50, 1⟩]
      ∧ BoxCollider.covers ⟨50, 50, 1⟩ ⟨0, 0, -1⟩ 50 0 = true
      ∧ BoxCollider.covers ⟨50, 50, 1⟩ ⟨0, 0, -1⟩ 51 0 = false
      ∧ ∀ x y : ℚ, 50 < x → BoxCollider.covers ⟨50, 50, 1⟩ ⟨0, 0, -1⟩ x y = false := by
  refine ⟨by decide!, by decide!, by decide!, by decide!, ?_⟩
  intro x y hx
  simp only [BoxCollider.covers, decide_eq_false_iff_not]
  intro h
  have h2 : x ≤ 0 + 50 := h.2.1
  linarith

/-- C12: every game object `_CreateScene` creates is renderable.  On a run in which
no engine call fails, each of the 18 objects `CreateGameObject` returned receives
exactly one `RenderComponent`; on that component `SetMesh` is called exactly once
and `SetMaterial` is called exactly once; the mesh passed was returned by an
earlier `CreateAsset<MeshResource>` call of the run and the material by an earlier
`CreateAsset<Material>` call. -/
theorem CreateScene_objects_renderable (eng : Engine) (fs : String → Bool)
    (hok : ∀ ev ∈ (sceneRun eng fs).events, ev.error = none) :
    (createdObjectHandles (sceneRun eng fs).calls).length = 18
      ∧ (∀ o ∈ createdObjectHandles (sceneRun eng fs).calls,
          (componentsOf (sceneRun eng fs).calls o Component.RenderComponent).length = 1)
      ∧ (∀ o ∈ createdObjectHandles (sceneRun eng fs).calls,
          ∀ r ∈ componentsOf (sceneRun eng fs).calls o Component.RenderComponent,
            (meshesSet (sceneRun eng fs).calls r).length = 1
              ∧ (materialsSet (sceneRun eng fs).calls r).length = 1
              ∧ (∀ pm ∈ meshesSet (sceneRun eng fs).calls r,
                  pm.2 < pm.1 ∧ isMeshAsset (sceneRun eng fs).calls pm.2 = true)
              ∧ (∀ pm ∈ materialsSet (sceneRun eng fs).calls r,
                  pm.2 < pm.1 ∧ isMaterialAsset (sceneRun eng fs).calls pm.2 = true)) := by
  rw [sceneRun_eq_complete eng fs hok]
  decide!

/-- C12, on the engine on which no call fails, with a file `scene.json` present. -/
theorem CreateScene_objects_renderable_witness :
    (createdObjectHandles (sceneRun Engine.noFailure (fun _ => true)).calls).length = 18 :=
  (CreateScene_objects_renderable Engine.noFailure (fun _ => true) (by decide!)).1

/-- C13: light indexing is in bounds.  On a run in which no engine call fails,
`_CreateScene` resizes `Lights`, of the one scene it made, once, to length 3; every
access `Lights[i]` comes after that resize and within the length the vector then
has, the indices used being 0, 1 and 2; `Position` is assigned for the lights 0, 1
and 2 and so is `Color`; and the length of `Lights` is 3 when the scene is saved
and when it is handed to the application. -/
theorem CreateScene_lights_in_bounds (eng : Engine) (fs : String → Bool)
    (hok : ∀ ev ∈ (sceneRun eng fs).events, ev.error = none) :
    ∃ scene : Handle,
      scenesMade (sceneRun eng fs).calls = [scene]
        ∧ (sceneRun eng fs).calls.filterMap Call.lightsResize? = [(scene, 3)]
        ∧ lightAccessesInBounds scene none (sceneRun eng fs).calls = true
        ∧ (sceneRun eng fs).calls.filterMap Call.lightIndex?
            = [(scene, 0), (scene, 0), (scene, 0), (scene, 1), (scene, 1),
               (scene, 2), (scene, 2)]
        ∧ (∀ si ∈ (sceneRun eng fs).calls.filterMap Call.lightIndex?, si.2 < 3)
        ∧ (sceneRun eng fs).calls.filterMap Call.lightPositionIndex? = [0, 1, 2]
        ∧ (sceneRun eng fs).calls.filterMap Call.lightColorIndex? = [0, 1, 2]
        ∧ lightsLength scene none (beforeSave (sceneRun eng fs).calls) = some 3
        ∧ lightsLength scene none (beforeLoadScene (sceneRun eng fs).calls) = some 3
        ∧ (beforeSave (sceneRun eng fs).calls).length + 2 = (sceneRun eng fs).calls.length
        ∧ (beforeLoadScene (sceneRun eng fs).calls).length + 1
            = (sceneRun eng fs).calls.length := by
  rw [sceneRun_eq_complete eng fs hok]
  exact ⟨28, by decide!⟩

/-- C13, on the engine on which no call fails, with no file `scene.json`. -/
theorem CreateScene_lights_in_bounds_witness :
    ∃ scene : Handle,
      lightAccessesInBounds scene none (sceneRun Engine.noFailure (fun _ => false)).calls
          = true
        ∧ lightsLength scene none
            (beforeSave (sceneRun Engine.noFailure (fun _ => false)).calls) = some 3 := by
  obtain ⟨scene, _, _, h3, _, _, _, _, h8, _⟩ :=
    CreateScene_lights_in_bounds Engine.noFailure (fun _ => false) (by decide!)
  exact ⟨scene, h3, h8⟩

end DefaultSceneLayer
